import Mathlib

/-!
# Verification of the InsightFinder site-scraper crawl orchestration

A shallow embedding of `src/content_ingestion/scrapers/site_scraper.py`
(`SiteScraperPipeline`).  External collaborators (HTTP fetching through the
proxy API, XPath evaluation on page sources, `parse_website`, URL resolution
for non-empty relative links, MongoDB insertion outcomes) are modelled as an
abstract environment `Env`; the crawl orchestration logic itself — frontier
management, structural gating, pagination limiting, date-bounded early
termination, deduplicated persistence and the surrounding error handling —
is translated function by function from the Python source.

Observable behaviour is recorded as a trace of events: every call of
`_get_page_source` (distinguished by whether it uses the crawler request
params on a listing page or the scraper request params on an article page),
every `insert_one` into the Mongo collection, and every call of
`_get_next_page` together with its result.
-/

/-- Errors corresponding to the three `except` arms in `run`
(`pymongo.errors.PyMongoError`, `requests.RequestException`, `Exception`). -/
inductive RunError where
  | storeError
  | fetchError
  | unclassified
deriving Repr, DecidableEq

/-- Result of `parse_website(article_content, scrape_patterns)`: a dict of
extracted fields, of which only the presence and value of the
`parsed_date` key is inspected by the crawler. -/
structure ParsedContent where
  parsed_date : Option String
  fields : List (String × String)
deriving Repr, DecidableEq

/-- A document inserted into the Mongo collection:
`(parsed_content merged with) url, visited=True, site_name`.  The merge
`parsed_content = dict(parsed_content, url=..., visited=True, site_name=...)`
gives the metadata fields priority, which the structure captures by keeping
them separate from the parsed fields. -/
structure Doc where
  url : String
  visited : Bool
  site_name : String
  parsed : ParsedContent
deriving Repr, DecidableEq

/-- The Mongo collection contents, as the list of inserted documents in
insertion order. -/
abbrev Store := List Doc

/-- `collection.find_one(dict(url=u))` returns a document exactly when the
store holds one whose `url` field equals `u`. -/
def storeHas (store : Store) (u : String) : Bool :=
  store.any (fun d => d.url = u)

/-- The `site_elements_patterns` configuration of a site: opaque XPath
pattern strings.  `active_page_pattern` and `next_page_pattern` are
optional (`None` disables the page limit / pagination). -/
structure SiteElementsPatterns where
  topics_urls_pattern : String
  must_exist_pattern : String
  articles_pattern : String
  active_page_pattern : Option String
  next_page_pattern : Option String
deriving Repr, DecidableEq

/-- The pipeline parameters stored by `SiteScraperPipeline.__init__`
(one field per `self._...` assignment). -/
structure SiteScraperPipeline where
  site_name : String
  base_url : String
  crawler_request_params : List (String × String)
  site_elements_patterns : SiteElementsPatterns
  scraper_request_params : List (String × String)
  scrape_patterns : List (String × String)
  blacklisted_urls : List String
  blacklisted_url_patterns : List String
deriving Repr, DecidableEq

/-- The external collaborators.
* `fetch url params` models `_get_page_source(url, request_params)`:
  the HTTP roundtrip either yields the page text or raises
  (`raise_for_status` / transport failure), modelled as `Except`.
* `xpathAll source pat` models `Selector(text=source).xpath(pat).getall()`;
  `.get()` is its head.
* `join base url` models `urllib.parse.urljoin(base, url)` for a non-empty
  `url` string (the `None`/empty cases are handled by `pyUrljoin` below,
  which is what the Python library guarantees independently of the URL
  grammar).
* `parseWebsite content patterns` models `parse_website`.
* `parseInt s` models `int(s)`: `none` when Python would raise `ValueError`.
* `insertErr store doc` models the outcome of `collection.insert_one`:
  `none` on success, `some e` when the driver raises. -/
structure Env where
  fetch : String → List (String × String) → Except RunError String
  xpathAll : String → String → List String
  join : String → String → String
  parseWebsite : String → List (String × String) → ParsedContent
  parseInt : String → Option Int
  insertErr : Store → Doc → Option RunError

/-- Lexicographic code-point order on character lists: the semantics of
Python's `<` on `str`, used by `article_date < until_date`. -/
def charsLt : List Char → List Char → Bool
  | [], [] => false
  | [], _ :: _ => true
  | _ :: _, [] => false
  | a :: xs, b :: ys => if a = b then charsLt xs ys else decide (a < b)

/-- Python's `a < b` on strings. -/
def pyStrLt (a b : String) : Bool := charsLt a.data b.data

/-- Whether the first list is a prefix of the second. -/
def charsPre : List Char → List Char → Bool
  | [], _ => true
  | _ :: _, [] => false
  | a :: xs, b :: ys => a = b && charsPre xs ys

/-- Python's `s.startswith(p)`. -/
def pyStartswith (s p : String) : Bool := charsPre p.data s.data

/-- `selector.xpath(pat).get()`: the first match, if any. -/
def xpathGet (env : Env) (page_source pat : String) : Option String :=
  (env.xpathAll page_source pat).head?

/-- `urllib.parse.urljoin(base, url)` where `url` may be `None`:
the Python implementation returns `base` whenever `url` is `None` or the
empty string, and otherwise resolves `url` against `base`. -/
def pyUrljoin (env : Env) (base : String) : Option String → String
  | none => base
  | some u => if u = "" then base else env.join base u

/-- Observable events of a run, in order of occurrence. -/
inductive Event where
  | fetchListing (url : String)
  | fetchArticle (url : String)
  | insertDoc (doc : Doc)
  | nextPage (res : Option String)
deriving Repr, DecidableEq

namespace SiteScraper

/-- `_find_start_urls`: topic-pattern matches of the base page, resolved
against `base_url`, filtered to same-site links not in the blacklist. -/
def find_start_urls (env : Env) (cfg : SiteScraperPipeline) (page_source : String) :
    List String :=
  let found := env.xpathAll page_source cfg.site_elements_patterns.topics_urls_pattern
  let found := found.map (fun url => pyUrljoin env cfg.base_url (some url))
  let found := found.filter (fun url => pyStartswith url cfg.base_url)
  let found := found.filter (fun url => !cfg.blacklisted_urls.contains url)
  found

/-- `_should_crawl_website`: `False` iff the must-exist pattern matches
nothing. -/
def should_crawl_website (env : Env) (cfg : SiteScraperPipeline) (page_source : String) :
    Bool :=
  match xpathGet env page_source cfg.site_elements_patterns.must_exist_pattern with
  | none => false
  | some _ => true

/-- `_find_article_urls`: article-pattern matches resolved against
`base_url` (no blacklist filtering). -/
def find_article_urls (env : Env) (cfg : SiteScraperPipeline) (page_source : String) :
    List String :=
  (env.xpathAll page_source cfg.site_elements_patterns.articles_pattern).map
    (fun url => pyUrljoin env cfg.base_url (some url))

/-- `_page_limit_reached`: `False` when the active-page pattern is
unconfigured or matches nothing; otherwise parse the matched element's text
as an integer and compare with `max_num_pages`.  `int(None)` (no text node)
and `int(<non-numeric>)` raise, which propagates to the catch-all handler
of `run`, modelled as `Except.error RunError.unclassified`. -/
def page_limit_reached (env : Env) (cfg : SiteScraperPipeline)
    (page_content : String) (max_num_pages : Int) : Except RunError Bool :=
  match cfg.site_elements_patterns.active_page_pattern with
  | none => .ok false
  | some pat =>
    match xpathGet env page_content pat with
    | none => .ok false
    | some _ =>
      match xpathGet env page_content (pat ++ "//text()") with
      | none => .error .unclassified
      | some txt =>
        match env.parseInt txt with
        | none => .error .unclassified
        | some n => .ok (n > max_num_pages)

/-- `_get_next_page`: `none` when the pattern is unconfigured or matches
nothing (Python falls off the function, returning `None`); otherwise the
anchor href beneath the matched element resolved against `base_url` —
where, when no href is found, `urljoin(base_url, None)` yields `base_url`
itself. -/
def get_next_page (env : Env) (cfg : SiteScraperPipeline) (page_content : String) :
    Option String :=
  match cfg.site_elements_patterns.next_page_pattern with
  | none => none
  | some pat =>
    match xpathGet env page_content pat with
    | none => none
    | some _ =>
      some (pyUrljoin env cfg.base_url (xpathGet env page_content (pat ++ "//a/@href")))

/-- Result of the per-listing-page article `for` loop. -/
structure LoopResult where
  events : List Event
  store : Store
  date_limit_reached : Bool
  err : Option RunError
deriving Repr, DecidableEq

/-- The `for article_url in article_urls` loop of `run` (lines 106-118):
skip already-ingested URLs, otherwise fetch the article with the scraper
request params, parse it, assign `date_limit_reached` when a
`parsed_date` is present (raw lexicographic string comparison with
`until_date`), merge the metadata fields and insert; after each iteration
`break` when `date_limit_reached` is set. -/
def article_loop (env : Env) (cfg : SiteScraperPipeline) (until_date : String) :
    List String → Store → Bool → LoopResult
  | [], store, dlr => ⟨[], store, dlr, none⟩
  | url :: rest, store, dlr =>
    if storeHas store url then
      if dlr then ⟨[], store, dlr, none⟩
      else article_loop env cfg until_date rest store dlr
    else
      match env.fetch url cfg.scraper_request_params with
      | .error e => ⟨[.fetchArticle url], store, dlr, some e⟩
      | .ok article_content =>
        let parsed := env.parseWebsite article_content cfg.scrape_patterns
        let dlr' := match parsed.parsed_date with
          | some d => pyStrLt d until_date
          | none => dlr
        let doc : Doc := ⟨url, true, cfg.site_name, parsed⟩
        match env.insertErr store doc with
        | some e => ⟨[.fetchArticle url], store, dlr', some e⟩
        | none =>
          if dlr' then ⟨[.fetchArticle url, .insertDoc doc], store ++ [doc], dlr', none⟩
          else
            let r := article_loop env cfg until_date rest (store ++ [doc]) dlr'
            ⟨.fetchArticle url :: .insertDoc doc :: r.events, r.store,
              r.date_limit_reached, r.err⟩

/-- Result of processing one dequeued frontier URL. -/
structure StepResult where
  events : List Event
  store : Store
  next_page : Option String
  err : Option RunError
deriving Repr, DecidableEq

/-- One iteration of the `while len(start_urls) > 0` loop body
(lines 93-127), for an already-dequeued `start_url`: fetch the listing
page, apply the structural gate, the page limit, the article loop, and —
only when neither an error nor the date limit interrupted — resolve the
next page (`next_page` is the URL to push to the front of the frontier). -/
def process_start_url (env : Env) (cfg : SiteScraperPipeline)
    (max_num_pages : Int) (until_date : String) (start_url : String) (store : Store) :
    StepResult :=
  match env.fetch start_url cfg.crawler_request_params with
  | .error e => ⟨[.fetchListing start_url], store, none, some e⟩
  | .ok page_content =>
    if !should_crawl_website env cfg page_content then
      ⟨[.fetchListing start_url], store, none, none⟩
    else
      match page_limit_reached env cfg page_content max_num_pages with
      | .error e => ⟨[.fetchListing start_url], store, none, some e⟩
      | .ok true => ⟨[.fetchListing start_url], store, none, none⟩
      | .ok false =>
        let article_urls := find_article_urls env cfg page_content
        let r := article_loop env cfg until_date article_urls store false
        match r.err with
        | some e => ⟨.fetchListing start_url :: r.events, r.store, none, some e⟩
        | none =>
          if r.date_limit_reached then
            ⟨.fetchListing start_url :: r.events, r.store, none, none⟩
          else
            let np := get_next_page env cfg page_content
            ⟨.fetchListing start_url :: (r.events ++ [.nextPage np]), r.store, np, none⟩

/-- Outcome of a run: normal completion, a surfaced error (the Python
handlers log the error and `run` returns, processing no further URLs), or
fuel exhaustion of the model (the Python `while` loop has no built-in
bound; `fuelOut` marks a run truncated by the model, never the program). -/
inductive Outcome where
  | ok
  | err (e : RunError)
  | fuelOut
deriving Repr, DecidableEq

/-- A run's observable result. -/
structure RunResult where
  events : List Event
  store : Store
  outcome : Outcome
deriving Repr, DecidableEq

/-- The `while len(start_urls) > 0` loop (line 89): `start_urls.popleft()`
takes the head, and a discovered next page is `appendleft`-ed, i.e. pushed
to the front of the frontier.  `fuel` bounds the number of iterations the
model unfolds. -/
def crawl_loop (env : Env) (cfg : SiteScraperPipeline)
    (max_num_pages : Int) (until_date : String) :
    Nat → List String → Store → RunResult
  | _, [], store => ⟨[], store, .ok⟩
  | 0, _ :: _, store => ⟨[], store, .fuelOut⟩
  | fuel + 1, url :: rest, store =>
    let step := process_start_url env cfg max_num_pages until_date url store
    match step.err with
    | some e => ⟨step.events, step.store, .err e⟩
    | none =>
      let frontier := match step.next_page with
        | some np => np :: rest
        | none => rest
      let r := crawl_loop env cfg max_num_pages until_date fuel frontier step.store
      ⟨step.events ++ r.events, r.store, r.outcome⟩

/-- `run(max_num_pages, until_date)`: fetch the base page with the crawler
request params, seed the frontier with the discovered start URLs, and
drive the loop.  Any exception escaping the body is caught by the
`except` arms, which log and return: the run ends with `Outcome.err`. -/
def run (env : Env) (cfg : SiteScraperPipeline)
    (max_num_pages : Int) (until_date : String) (fuel : Nat) (store : Store) :
    RunResult :=
  match env.fetch cfg.base_url cfg.crawler_request_params with
  | .error e => ⟨[.fetchListing cfg.base_url], store, .err e⟩
  | .ok first_page_content =>
    let start_urls := find_start_urls env cfg first_page_content
    let r := crawl_loop env cfg max_num_pages until_date fuel start_urls store
    ⟨.fetchListing cfg.base_url :: r.events, r.store, r.outcome⟩

end SiteScraper

/-!
## Concrete instantiations

Small closed sites used to exercise the model on explicit inputs: a
three-article site whose second article is older than the cutoff, a
two-seed site with pagination, and degenerate sites for the page-limit,
empty-discovery and missing-href cases.
-/

open SiteScraper

/-- Pattern set with neither an active-page nor a next-page pattern. -/
def patterns1 : SiteElementsPatterns := ⟨"T", "M", "A", none, none⟩

/-- A site "b" using `patterns1`, with empty blacklists. -/
def cfg1 : SiteScraperPipeline := ⟨"s", "b", [], patterns1, [], [], [], []⟩

/-- Site "b": the base page "PB" links one listing "bL" whose page "PL"
passes the structural gate and lists three articles "bA1" "bA2" "bA3";
article "bA1" has date "9" (not older than cutoff "5"), "bA2" has date
"1" (older), "bA3" is never served. -/
def env1 : Env where
  fetch := fun url _ =>
    if url = "b" then .ok "PB"
    else if url = "bL" then .ok "PL"
    else if url = "bA1" then .ok "P1"
    else if url = "bA2" then .ok "P2"
    else .error .fetchError
  xpathAll := fun src pat =>
    if src = "PB" && pat = "T" then ["L"]
    else if src = "PL" && pat = "M" then ["y"]
    else if src = "PL" && pat = "A" then ["A1", "A2", "A3"]
    else []
  join := fun base u => base ++ u
  parseWebsite := fun content _ =>
    if content = "P1" then ⟨some "9", []⟩
    else if content = "P2" then ⟨some "1", []⟩
    else ⟨none, []⟩
  parseInt := fun _ => none
  insertErr := fun _ _ => none

/-- Pattern set with a next-page pattern "N". -/
def patterns4 : SiteElementsPatterns := ⟨"T", "M", "A", none, some "N"⟩

/-- A site "b" using `patterns4`. -/
def cfg4 : SiteScraperPipeline := ⟨"s", "b", [], patterns4, [], [], [], []⟩

/-- Site "b" with two seeds A and B; seed A's page "PA" has a next-page
element linking "p2" (page "PA2"); neither "PA2" nor B's page "PBB" has
one.  No page lists articles. -/
def env4 : Env where
  fetch := fun url _ =>
    if url = "b" then .ok "PB"
    else if url = "bA" then .ok "PA"
    else if url = "bp2" then .ok "PA2"
    else if url = "bB" then .ok "PBB"
    else .error .fetchError
  xpathAll := fun src pat =>
    if src = "PB" && pat = "T" then ["A", "B"]
    else if src = "PA" && pat = "M" then ["y"]
    else if src = "PA2" && pat = "M" then ["y"]
    else if src = "PBB" && pat = "M" then ["y"]
    else if src = "PA" && pat = "N" then ["x"]
    else if src = "PA" && pat = "N//a/@href" then ["p2"]
    else []
  join := fun base u => base ++ u
  parseWebsite := fun _ _ => ⟨none, []⟩
  parseInt := fun _ => none
  insertErr := fun _ _ => none

/-- Pattern set with an active-page pattern "P". -/
def patterns5 : SiteElementsPatterns := ⟨"T", "M", "A", some "P", none⟩

/-- A site "b" using `patterns5`. -/
def cfg5 : SiteScraperPipeline := ⟨"s", "b", [], patterns5, [], [], [], []⟩

/-- Site "b" whose single listing "bL" carries an active-page indicator
with text "7", parseable as the integer 7. -/
def env5 : Env where
  fetch := fun url _ =>
    if url = "b" then .ok "PB"
    else if url = "bL" then .ok "PL"
    else .error .fetchError
  xpathAll := fun src pat =>
    if src = "PB" && pat = "T" then ["L"]
    else if src = "PL" && pat = "M" then ["y"]
    else if src = "PL" && pat = "P" then ["el"]
    else if src = "PL" && pat = "P//text()" then ["7"]
    else []
  join := fun base u => base ++ u
  parseWebsite := fun _ _ => ⟨none, []⟩
  parseInt := fun s => if s = "7" then some 7 else none
  insertErr := fun _ _ => none

/-- Like `env5`, but the active-page indicator's text "xyz" does not
parse as an integer. -/
def env6 : Env where
  fetch := fun url _ =>
    if url = "b" then .ok "PB"
    else if url = "bL" then .ok "PL"
    else .error .fetchError
  xpathAll := fun src pat =>
    if src = "PB" && pat = "T" then ["L"]
    else if src = "PL" && pat = "M" then ["y"]
    else if src = "PL" && pat = "P" then ["el"]
    else if src = "PL" && pat = "P//text()" then ["xyz"]
    else []
  join := fun base u => base ++ u
  parseWebsite := fun _ _ => ⟨none, []⟩
  parseInt := fun _ => none
  insertErr := fun _ _ => none

/-- Site whose base page "E" matches no pattern at all. -/
def env8 : Env where
  fetch := fun url _ => if url = "b" then .ok "E" else .error .fetchError
  xpathAll := fun _ _ => []
  join := fun base u => base ++ u
  parseWebsite := fun _ _ => ⟨none, []⟩
  parseInt := fun _ => none
  insertErr := fun _ _ => none

/-- Site "b" with one seed A whose page "PA" has a next-page element but
no anchor href beneath it. -/
def env10 : Env where
  fetch := fun url _ =>
    if url = "b" then .ok "PB"
    else if url = "bA" then .ok "PA"
    else .error .fetchError
  xpathAll := fun src pat =>
    if src = "PB" && pat = "T" then ["A"]
    else if src = "PA" && pat = "M" then ["y"]
    else if src = "PA" && pat = "N" then ["x"]
    else []
  join := fun base u => base ++ u
  parseWebsite := fun _ _ => ⟨none, []⟩
  parseInt := fun _ => none
  insertErr := fun _ _ => none

/-- A store that already holds article "bA1" of `env1`. -/
def storeC2 : Store := [⟨"bA1", true, "s", ⟨some "9", []⟩⟩]

/-!
## Claims
-/

/-- C1, as stated, is false on the code: in the three-article scenario the
article that triggers the date limit is itself parsed and inserted before
the `break` (lines 113-118 insert first, then test the flag), so the
first *and* the second articles are inserted; only the third is never
fetched.  Concretely, on `env1`/`cfg1` with cutoff "5" the final store
holds the documents for "bA1" and "bA2", refuting "exactly the first
article is inserted". -/
theorem claim_C1_counterexample :
    pyStrLt "9" "5" = false ∧ pyStrLt "1" "5" = true ∧
    (SiteScraper.run env1 cfg1 10 "5" 5 []).store.map Doc.url = ["bA1", "bA2"] ∧
    ¬ (SiteScraper.run env1 cfg1 10 "5" 5 []).store.map Doc.url = ["bA1"] ∧
    Event.fetchArticle "bA3" ∉ (SiteScraper.run env1 cfg1 10 "5" 5 []).events := by
  decide

/-- C1 (amended): on a listing page with three discovered article URLs,
none already in the store, where the second article's extracted date is
strictly earlier than `until_date` and the first's is not, exactly the
first AND second articles are inserted (the second is inserted before the
`break`), the third article URL is never fetched, and no next page is
resolved: the step's event trace is exactly listing fetch, fetch+insert of
the first article, fetch+insert of the second. -/
theorem claim_C1_amended_insertion
    (env : Env) (cfg : SiteScraperPipeline) (m : Int)
    (until_date listing lcontent a1 a2 a3 ca1 ca2 da1 da2 : String)
    (store : Store)
    (hfl : env.fetch listing cfg.crawler_request_params = .ok lcontent)
    (hg : should_crawl_website env cfg lcontent = true)
    (hl : page_limit_reached env cfg lcontent m = .ok false)
    (harts : find_article_urls env cfg lcontent = [a1, a2, a3])
    (h1s : storeHas store a1 = false)
    (h1f : env.fetch a1 cfg.scraper_request_params = .ok ca1)
    (h1d : (env.parseWebsite ca1 cfg.scrape_patterns).parsed_date = some da1)
    (h1lt : pyStrLt da1 until_date = false)
    (h1i : env.insertErr store
        ⟨a1, true, cfg.site_name, env.parseWebsite ca1 cfg.scrape_patterns⟩ = none)
    (h2s : storeHas
        (store ++ [⟨a1, true, cfg.site_name, env.parseWebsite ca1 cfg.scrape_patterns⟩])
        a2 = false)
    (h2f : env.fetch a2 cfg.scraper_request_params = .ok ca2)
    (h2d : (env.parseWebsite ca2 cfg.scrape_patterns).parsed_date = some da2)
    (h2lt : pyStrLt da2 until_date = true)
    (h2i : env.insertErr
        (store ++ [⟨a1, true, cfg.site_name, env.parseWebsite ca1 cfg.scrape_patterns⟩])
        ⟨a2, true, cfg.site_name, env.parseWebsite ca2 cfg.scrape_patterns⟩ = none) :
    process_start_url env cfg m until_date listing store =
      ⟨[Event.fetchListing listing, Event.fetchArticle a1,
        Event.insertDoc ⟨a1, true, cfg.site_name, env.parseWebsite ca1 cfg.scrape_patterns⟩,
        Event.fetchArticle a2,
        Event.insertDoc ⟨a2, true, cfg.site_name, env.parseWebsite ca2 cfg.scrape_patterns⟩],
       store ++ [⟨a1, true, cfg.site_name, env.parseWebsite ca1 cfg.scrape_patterns⟩,
                 ⟨a2, true, cfg.site_name, env.parseWebsite ca2 cfg.scrape_patterns⟩],
       none, none⟩ := by
  have hloop : article_loop env cfg until_date [a1, a2, a3] store false =
      ⟨[Event.fetchArticle a1,
        Event.insertDoc ⟨a1, true, cfg.site_name, env.parseWebsite ca1 cfg.scrape_patterns⟩,
        Event.fetchArticle a2,
        Event.insertDoc ⟨a2, true, cfg.site_name, env.parseWebsite ca2 cfg.scrape_patterns⟩],
       store ++ [⟨a1, true, cfg.site_name, env.parseWebsite ca1 cfg.scrape_patterns⟩,
                 ⟨a2, true, cfg.site_name, env.parseWebsite ca2 cfg.scrape_patterns⟩],
       true, none⟩ := by
    simp [article_loop, h1s, h1f, h1d, h1lt, h1i, h2s, h2f, h2d, h2lt, h2i]
  simp [process_start_url, hfl, hg, hl, harts, hloop]

/-- C1 witness: the amended statement instantiated on `env1`/`cfg1`. -/
theorem claim_C1_witness :
    process_start_url env1 cfg1 10 "5" "bL" [] =
      ⟨[Event.fetchListing "bL", Event.fetchArticle "bA1",
        Event.insertDoc ⟨"bA1", true, "s", ⟨some "9", []⟩⟩,
        Event.fetchArticle "bA2",
        Event.insertDoc ⟨"bA2", true, "s", ⟨some "1", []⟩⟩],
       [⟨"bA1", true, "s", ⟨some "9", []⟩⟩, ⟨"bA2", true, "s", ⟨some "1", []⟩⟩],
       none, none⟩ := by
  have h := claim_C1_amended_insertion env1 cfg1 10 "5" "bL" "PL"
    "bA1" "bA2" "bA3" "P1" "P2" "9" "1" []
    rfl rfl rfl rfl rfl rfl rfl rfl rfl rfl rfl rfl rfl rfl
  simpa using h

/-- C4: a discovered next-page URL is pushed to the front of the frontier:
with seeds A and B discovered in that order, where A's page yields next
page "bp2", the listing pages are fetched in the order base, A, A-page2,
B — A's pagination continuation is processed before the next distinct
seed. -/
theorem claim_C4_pagination_order :
    (SiteScraper.run env4 cfg4 10 "5" 9 []).events =
      [Event.fetchListing "b", Event.fetchListing "bA", Event.nextPage (some "bp2"),
       Event.fetchListing "bp2", Event.nextPage none,
       Event.fetchListing "bB", Event.nextPage none] ∧
    (SiteScraper.run env4 cfg4 10 "5" 9 []).events.filterMap
      (fun e => match e with | Event.fetchListing u => some u | _ => none) =
      ["b", "bA", "bp2", "bB"] ∧
    (SiteScraper.run env4 cfg4 10 "5" 9 []).outcome = Outcome.ok ∧
    get_next_page env4 cfg4 "PA" = some "bp2" := by
  decide

/-- Helper: the article loop never touches an article URL that the store
already contains — no fetch, no insert — and the URL stays in the store. -/
theorem article_loop_dedup (env : Env) (cfg : SiteScraperPipeline)
    (until_date target : String) :
    ∀ (urls : List String) (store : Store) (dlr : Bool),
      storeHas store target = true →
      Event.fetchArticle target ∉ (article_loop env cfg until_date urls store dlr).events ∧
      (∀ d, Event.insertDoc d ∈ (article_loop env cfg until_date urls store dlr).events →
        d.url ≠ target) ∧
      storeHas (article_loop env cfg until_date urls store dlr).store target = true := by
  intro urls
  induction urls with
  | nil =>
    intro store dlr h
    simp [article_loop, h]
  | cons url rest ih =>
    intro store dlr h
    by_cases hs : storeHas store url = true
    · cases dlr with
      | true => simp [article_loop, hs, h]
      | false => simpa [article_loop, hs] using ih store false h
    · have hne : url ≠ target := by
        intro he; rw [he] at hs; exact hs h
      simp only [article_loop, hs]
      cases hf : env.fetch url cfg.scraper_request_params with
      | error e => simp [hne, Ne.symm hne, h]
      | ok article_content =>
        simp only []
        cases hi : env.insertErr store
            ⟨url, true, cfg.site_name, env.parseWebsite article_content cfg.scrape_patterns⟩ with
        | some e => simp [hi, hne, Ne.symm hne, h]
        | none =>
          have hmem : storeHas
              (store ++ [⟨url, true, cfg.site_name,
                env.parseWebsite article_content cfg.scrape_patterns⟩]) target = true := by
            simp only [storeHas, List.any_append]
            simp [storeHas] at h
            simp [h]
          cases hd : (env.parseWebsite article_content cfg.scrape_patterns).parsed_date with
          | none =>
            cases dlr with
            | true => simp [hi, hd, hne, Ne.symm hne, hmem]
            | false =>
              have := ih (store ++ [⟨url, true, cfg.site_name,
                env.parseWebsite article_content cfg.scrape_patterns⟩]) false hmem
              simp only [hi, hd]
              simp only [Bool.false_eq_true, if_false]
              constructor
              · simp [hne, Ne.symm hne, this.1]
              constructor
              · intro d hdmem
                simp only [List.mem_cons] at hdmem
                rcases hdmem with h1 | h1 | h1
                · simp at h1
                · simp only [Event.insertDoc.injEq] at h1
                  rw [h1]
                  exact hne
                · exact this.2.1 d h1
              · exact this.2.2
          | some dt =>
            cases hlt : pyStrLt dt until_date with
            | true => simp [hi, hd, hlt, hne, Ne.symm hne, hmem]
            | false =>
              have := ih (store ++ [⟨url, true, cfg.site_name,
                env.parseWebsite article_content cfg.scrape_patterns⟩]) false hmem
              simp only [hi, hd, hlt]
              simp only [Bool.false_eq_true, if_false]
              constructor
              · simp [hne, Ne.symm hne, this.1]
              constructor
              · intro d hdmem
                simp only [List.mem_cons] at hdmem
                rcases hdmem with h1 | h1 | h1
                · simp at h1
                · simp only [Event.insertDoc.injEq] at h1
                  rw [h1]
                  exact hne
                · exact this.2.1 d h1
              · exact this.2.2

/-- Helper: processing one dequeued listing URL never fetches, as an
article, a URL the store already contains, never inserts a document with
that URL, and keeps it in the store. -/
theorem process_start_url_dedup (env : Env) (cfg : SiteScraperPipeline)
    (m : Int) (until_date target url : String) (store : Store)
    (h : storeHas store target = true) :
    Event.fetchArticle target ∉ (process_start_url env cfg m until_date url store).events ∧
    (∀ d, Event.insertDoc d ∈ (process_start_url env cfg m until_date url store).events →
      d.url ≠ target) ∧
    storeHas (process_start_url env cfg m until_date url store).store target = true := by
  simp only [process_start_url]
  cases hf : env.fetch url cfg.crawler_request_params with
  | error e => simp [h]
  | ok page_content =>
    by_cases hg : should_crawl_website env cfg page_content = true
    · simp only [hg, Bool.not_true, Bool.false_eq_true, if_false]
      cases hp : page_limit_reached env cfg page_content m with
      | error e => simp [h]
      | ok b =>
        cases b with
        | true => simp [h]
        | false =>
          have hart := article_loop_dedup env cfg until_date target
            (find_article_urls env cfg page_content) store false h
          cases he : (article_loop env cfg until_date
              (find_article_urls env cfg page_content) store false).err with
          | some e =>
            refine ⟨?_, ?_, hart.2.2⟩
            · simp [hart.1]
            · intro d hd
              simp only [List.mem_cons] at hd
              rcases hd with h1 | h1
              · simp at h1
              · exact hart.2.1 d h1
          | none =>
            cases hdl : (article_loop env cfg until_date
                (find_article_urls env cfg page_content) store false).date_limit_reached with
            | true =>
              simp only [if_true]
              refine ⟨?_, ?_, hart.2.2⟩
              · simp [hart.1]
              · intro d hd
                simp only [List.mem_cons] at hd
                rcases hd with h1 | h1
                · simp at h1
                · exact hart.2.1 d h1
            | false =>
              simp only [Bool.false_eq_true, if_false]
              refine ⟨?_, ?_, hart.2.2⟩
              · simp [hart.1]
              · intro d hd
                simp only [List.mem_cons, List.mem_append] at hd
                rcases hd with h1 | h1 | h1
                · simp at h1
                · exact hart.2.1 d h1
                · simp at h1
    · have hg2 : should_crawl_website env cfg page_content = false := by
        revert hg; cases should_crawl_website env cfg page_content <;> simp
      simp [hg2, h]

/-- Helper: the crawl loop never fetches, as an article, a URL the store
already contains, and never inserts a document with that URL. -/
theorem crawl_loop_dedup (env : Env) (cfg : SiteScraperPipeline)
    (m : Int) (until_date target : String) :
    ∀ (fuel : Nat) (frontier : List String) (store : Store),
      storeHas store target = true →
      Event.fetchArticle target ∉
        (crawl_loop env cfg m until_date fuel frontier store).events ∧
      (∀ d, Event.insertDoc d ∈
          (crawl_loop env cfg m until_date fuel frontier store).events → d.url ≠ target) ∧
      storeHas (crawl_loop env cfg m until_date fuel frontier store).store target = true := by
  intro fuel
  induction fuel with
  | zero =>
    intro frontier store h
    cases frontier <;> simp [crawl_loop, h]
  | succ n ih =>
    intro frontier store h
    cases frontier with
    | nil => simp [crawl_loop, h]
    | cons url rest =>
      have hstep := process_start_url_dedup env cfg m until_date target url store h
      simp only [crawl_loop]
      cases he : (process_start_url env cfg m until_date url store).err with
      | some e =>
        simp only []
        exact ⟨hstep.1, hstep.2.1, hstep.2.2⟩
      | none =>
        simp only []
        cases hn : (process_start_url env cfg m until_date url store).next_page with
        | some np =>
          have hrec := ih (np :: rest) (process_start_url env cfg m until_date url store).store
            hstep.2.2
          refine ⟨?_, ?_, hrec.2.2⟩
          · simp [List.mem_append, hstep.1, hrec.1]
          · intro d hd
            simp only [List.mem_append] at hd
            rcases hd with h1 | h1
            · exact hstep.2.1 d h1
            · exact hrec.2.1 d h1
        | none =>
          have hrec := ih rest (process_start_url env cfg m until_date url store).store
            hstep.2.2
          refine ⟨?_, ?_, hrec.2.2⟩
          · simp [List.mem_append, hstep.1, hrec.1]
          · intro d hd
            simp only [List.mem_append] at hd
            rcases hd with h1 | h1
            · exact hstep.2.1 d h1
            · exact hrec.2.1 d h1

/-- C2: for every article URL for which the store already contains a
document with that exact URL, a run never fetches that URL as an article
page (with the scraper request params) and never inserts a document for
it — re-running the crawl over already-ingested articles performs no
fetches and no writes for them. -/
theorem claim_C2_idempotent_rerun (env : Env) (cfg : SiteScraperPipeline)
    (m : Int) (until_date target : String) (fuel : Nat) (store : Store)
    (h : storeHas store target = true) :
    Event.fetchArticle target ∉ (SiteScraper.run env cfg m until_date fuel store).events ∧
    ∀ d, Event.insertDoc d ∈ (SiteScraper.run env cfg m until_date fuel store).events →
      d.url ≠ target := by
  simp only [SiteScraper.run]
  cases hf : env.fetch cfg.base_url cfg.crawler_request_params with
  | error e => simp
  | ok content =>
    have hrec := crawl_loop_dedup env cfg m until_date target fuel
      (find_start_urls env cfg content) store h
    constructor
    · simp [hrec.1]
    · intro d hd
      simp only [List.mem_cons] at hd
      rcases hd with h1 | h1
      · simp at h1
      · exact hrec.2.1 d h1

/-- C2 witness: with "bA1" already in the store, the `env1` run fetches
every other page but never article "bA1". -/
theorem claim_C2_witness :
    storeHas storeC2 "bA1" = true ∧
    Event.fetchArticle "bA1" ∉ (SiteScraper.run env1 cfg1 10 "5" 5 storeC2).events := by
  refine ⟨by decide, ?_⟩
  exact (claim_C2_idempotent_rerun env1 cfg1 10 "5" "bA1" 5 storeC2 (by decide)).1

/-- Helper: when the article loop traverses a prefix without an error and
without hitting the date limit, appending further URLs continues the loop
from the reached store, with the event lists concatenated. -/
theorem article_loop_append (env : Env) (cfg : SiteScraperPipeline) (until_date : String) :
    ∀ (pre post : List String) (store : Store) (evs : List Event) (st : Store),
      article_loop env cfg until_date pre store false = ⟨evs, st, false, none⟩ →
      article_loop env cfg until_date (pre ++ post) store false =
        ⟨evs ++ (article_loop env cfg until_date post st false).events,
         (article_loop env cfg until_date post st false).store,
         (article_loop env cfg until_date post st false).date_limit_reached,
         (article_loop env cfg until_date post st false).err⟩ := by
  intro pre
  induction pre with
  | nil =>
    intro post store evs st h
    simp only [article_loop] at h
    injection h with h1 h2 h3 h4
    subst h1; subst h2
    simp
  | cons url pre ih =>
    intro post store evs st h
    by_cases hs : storeHas store url = true
    · simp only [article_loop, hs, if_true] at h
      simp only [List.cons_append, article_loop, hs, if_true]
      exact ih post store evs st h
    · have hs2 : storeHas store url = false := by
        revert hs; cases storeHas store url <;> simp
      cases hf : env.fetch url cfg.scraper_request_params with
      | error e => simp [article_loop, hs2, hf] at h
      | ok content =>
        cases hd : (env.parseWebsite content cfg.scrape_patterns).parsed_date with
        | none =>
          cases hi : env.insertErr store
              ⟨url, true, cfg.site_name, env.parseWebsite content cfg.scrape_patterns⟩ with
          | some e => simp [article_loop, hs2, hf, hd, hi] at h
          | none =>
            rcases hq : article_loop env cfg until_date pre
                (store ++ [⟨url, true, cfg.site_name,
                  env.parseWebsite content cfg.scrape_patterns⟩]) false with
              ⟨evs2, st2, dlr2, err2⟩
            simp only [article_loop, hs2, Bool.false_eq_true, if_false, hf, hd, hi, hq] at h
            injection h with h1 h2 h3 h4
            subst h3; subst h4; subst h1; subst h2
            have hrec := ih post (store ++ [⟨url, true, cfg.site_name,
              env.parseWebsite content cfg.scrape_patterns⟩]) evs2 st2 hq
            simp only [List.cons_append, article_loop, hs2, Bool.false_eq_true, if_false,
              hf, hd, hi, List.append_eq, hrec]
        | some dt =>
          cases hlt : pyStrLt dt until_date with
          | true =>
            cases hi : env.insertErr store
                ⟨url, true, cfg.site_name, env.parseWebsite content cfg.scrape_patterns⟩ with
            | some e => simp [article_loop, hs2, hf, hd, hlt, hi] at h
            | none => simp [article_loop, hs2, hf, hd, hlt, hi] at h
          | false =>
            cases hi : env.insertErr store
                ⟨url, true, cfg.site_name, env.parseWebsite content cfg.scrape_patterns⟩ with
            | some e => simp [article_loop, hs2, hf, hd, hlt, hi] at h
            | none =>
              rcases hq : article_loop env cfg until_date pre
                  (store ++ [⟨url, true, cfg.site_name,
                    env.parseWebsite content cfg.scrape_patterns⟩]) false with
                ⟨evs2, st2, dlr2, err2⟩
              simp only [article_loop, hs2, Bool.false_eq_true, if_false, hf, hd, hlt, hi,
                hq] at h
              injection h with h1 h2 h3 h4
              subst h3; subst h4; subst h1; subst h2
              have hrec := ih post (store ++ [⟨url, true, cfg.site_name,
                env.parseWebsite content cfg.scrape_patterns⟩]) evs2 st2 hq
              simp only [List.cons_append, article_loop, hs2, Bool.false_eq_true, if_false,
                hf, hd, hlt, hi, List.append_eq, hrec]

/-- C3: within one listing page's article batch, once an article whose
extracted date is strictly earlier than `until_date` is processed (after a
prefix of the batch that neither erred nor hit the limit), the step's
whole event trace is exactly the listing fetch, the prefix's events, and
that article's fetch and insert: no subsequent article URL of the batch is
ever fetched, `_get_next_page` is never called (no `nextPage` event) and
no next-page URL is enqueued (`next_page = none`). -/
theorem claim_C3_date_limit_stops_batch (env : Env) (cfg : SiteScraperPipeline)
    (m : Int) (until_date listing lcontent a ca da : String)
    (pre post : List String) (store st : Store) (evs : List Event)
    (hfl : env.fetch listing cfg.crawler_request_params = .ok lcontent)
    (hg : should_crawl_website env cfg lcontent = true)
    (hl : page_limit_reached env cfg lcontent m = .ok false)
    (harts : find_article_urls env cfg lcontent = pre ++ a :: post)
    (hpre : article_loop env cfg until_date pre store false = ⟨evs, st, false, none⟩)
    (hs : storeHas st a = false)
    (hf : env.fetch a cfg.scraper_request_params = .ok ca)
    (hd : (env.parseWebsite ca cfg.scrape_patterns).parsed_date = some da)
    (hlt : pyStrLt da until_date = true)
    (hi : env.insertErr st
        ⟨a, true, cfg.site_name, env.parseWebsite ca cfg.scrape_patterns⟩ = none) :
    process_start_url env cfg m until_date listing store =
      ⟨Event.fetchListing listing ::
         (evs ++ [Event.fetchArticle a,
           Event.insertDoc ⟨a, true, cfg.site_name, env.parseWebsite ca cfg.scrape_patterns⟩]),
       st ++ [⟨a, true, cfg.site_name, env.parseWebsite ca cfg.scrape_patterns⟩],
       none, none⟩ := by
  have hstep : article_loop env cfg until_date (a :: post) st false =
      ⟨[Event.fetchArticle a,
        Event.insertDoc ⟨a, true, cfg.site_name, env.parseWebsite ca cfg.scrape_patterns⟩],
       st ++ [⟨a, true, cfg.site_name, env.parseWebsite ca cfg.scrape_patterns⟩],
       true, none⟩ := by
    simp [article_loop, hs, hf, hd, hlt, hi]
  have happ := article_loop_append env cfg until_date pre (a :: post) store evs st hpre
  rw [hstep] at happ
  simp only [process_start_url, hfl, hg, Bool.not_true, Bool.false_eq_true, if_false, hl,
    harts, happ]
  simp

/-- C3 witness: on `env1`/`cfg1`, after the one-article prefix ["bA1"],
article "bA2" (date "1" earlier than cutoff "5") ends the batch ["bA1",
"bA2", "bA3"]: "bA3" is never fetched and no next page is resolved. -/
theorem claim_C3_witness :
    article_loop env1 cfg1 "5" ["bA1"] [] false =
      ⟨[Event.fetchArticle "bA1", Event.insertDoc ⟨"bA1", true, "s", ⟨some "9", []⟩⟩],
       [⟨"bA1", true, "s", ⟨some "9", []⟩⟩], false, none⟩ ∧
    process_start_url env1 cfg1 10 "5" "bL" [] =
      ⟨Event.fetchListing "bL" ::
         ([Event.fetchArticle "bA1", Event.insertDoc ⟨"bA1", true, "s", ⟨some "9", []⟩⟩] ++
          [Event.fetchArticle "bA2", Event.insertDoc ⟨"bA2", true, "s", ⟨some "1", []⟩⟩]),
       [⟨"bA1", true, "s", ⟨some "9", []⟩⟩] ++ [⟨"bA2", true, "s", ⟨some "1", []⟩⟩],
       none, none⟩ := by
  refine ⟨by rfl, ?_⟩
  exact claim_C3_date_limit_stops_batch env1 cfg1 10 "5" "bL" "PL" "bA2" "P2" "1"
    ["bA1"] ["bA3"] [] [⟨"bA1", true, "s", ⟨some "9", []⟩⟩]
    [Event.fetchArticle "bA1", Event.insertDoc ⟨"bA1", true, "s", ⟨some "9", []⟩⟩]
    rfl rfl rfl rfl rfl rfl rfl rfl rfl rfl

/-- C5: when the active-page pattern matches and the parsed page number
strictly exceeds `max_num_pages`, the dequeued listing page is skipped
entirely — its step performs only the listing fetch: no article fetch, no
insertion, no next-page resolution, store unchanged.  When the pattern is
unconfigured, or configured but matching nothing, `_page_limit_reached`
returns `False`: no limit applies. -/
theorem claim_C5_page_limit_skip (env : Env) (cfg : SiteScraperPipeline)
    (m n : Int) (until_date url content el txt pat : String) (store : Store)
    (hf : env.fetch url cfg.crawler_request_params = .ok content)
    (hg : should_crawl_website env cfg content = true)
    (hp : cfg.site_elements_patterns.active_page_pattern = some pat)
    (hel : xpathGet env content pat = some el)
    (htxt : xpathGet env content (pat ++ "//text()") = some txt)
    (hn : env.parseInt txt = some n)
    (hgt : n > m) :
    process_start_url env cfg m until_date url store =
      ⟨[Event.fetchListing url], store, none, none⟩ ∧
    (∀ (cfg2 : SiteScraperPipeline) (content2 : String) (m2 : Int),
      cfg2.site_elements_patterns.active_page_pattern = none →
      page_limit_reached env cfg2 content2 m2 = .ok false) ∧
    (∀ (cfg2 : SiteScraperPipeline) (content2 pat2 : String) (m2 : Int),
      cfg2.site_elements_patterns.active_page_pattern = some pat2 →
      xpathGet env content2 pat2 = none →
      page_limit_reached env cfg2 content2 m2 = .ok false) := by
  refine ⟨?_, ?_, ?_⟩
  · have hlim : page_limit_reached env cfg content m = .ok true := by
      simp only [page_limit_reached, hp, hel, htxt, hn]
      simp [hgt]
    simp [process_start_url, hf, hg, hlim]
  · intro cfg2 content2 m2 hnone
    simp [page_limit_reached, hnone]
  · intro cfg2 content2 pat2 m2 hp2 hg2
    simp [page_limit_reached, hp2, hg2]

/-- C5 witness: active page 7 with limit 2 on `env5` skips the listing;
`cfg1` (no active-page pattern) never hits the limit. -/
theorem claim_C5_witness :
    process_start_url env5 cfg5 2 "5" "bL" [] =
      ⟨[Event.fetchListing "bL"], [], none, none⟩ ∧
    page_limit_reached env5 cfg1 "PL" 2 = .ok false := by
  have h := claim_C5_page_limit_skip env5 cfg5 2 7 "5" "bL" "PL" "el" "7" "P" []
    rfl rfl rfl rfl rfl rfl (by decide)
  exact ⟨h.1, h.2.1 cfg1 "PL" 2 rfl⟩

/-- C6: when the active-page pattern matches an element but the element's
text does not parse as an integer (Python's `int(...)` raises), the error
propagates out of the frontier loop to the catch-all handler: the run's
outcome is the surfaced `unclassified` error, the whole trace is just the
listing fetch, and no further frontier item — not even the remaining
`rest` — is processed. -/
theorem claim_C6_parse_failure_fatal (env : Env) (cfg : SiteScraperPipeline)
    (m : Int) (until_date url content el txt pat : String)
    (fuel : Nat) (rest : List String) (store : Store)
    (hf : env.fetch url cfg.crawler_request_params = .ok content)
    (hg : should_crawl_website env cfg content = true)
    (hp : cfg.site_elements_patterns.active_page_pattern = some pat)
    (hel : xpathGet env content pat = some el)
    (htxt : xpathGet env content (pat ++ "//text()") = some txt)
    (hn : env.parseInt txt = none) :
    crawl_loop env cfg m until_date (fuel + 1) (url :: rest) store =
      ⟨[Event.fetchListing url], store, .err .unclassified⟩ := by
  have hlim : page_limit_reached env cfg content m = .error .unclassified := by
    simp [page_limit_reached, hp, hel, htxt, hn]
  have hstep : process_start_url env cfg m until_date url store =
      ⟨[Event.fetchListing url], store, none, some .unclassified⟩ := by
    simp [process_start_url, hf, hg, hlim]
  simp [crawl_loop, hstep]

/-- C6 witness: on `env6` the active-page text "xyz" fails to parse and
the run aborts with the unclassified error after the single listing
fetch, leaving the queued "b2" unprocessed. -/
theorem claim_C6_witness :
    crawl_loop env6 cfg5 10 "5" 1 ["bL", "b2"] [] =
      ⟨[Event.fetchListing "bL"], [], .err .unclassified⟩ := by
  exact claim_C6_parse_failure_fatal env6 cfg5 10 "5" "bL" "PL" "el" "xyz" "P"
    0 ["b2"] [] rfl rfl rfl rfl rfl rfl

/-- Helper: the article loop only ever appends to the store — everything in
the incoming store is in the resulting store, and every document whose
insertion event appears in the loop's trace is in the resulting store. -/
theorem article_loop_persist (env : Env) (cfg : SiteScraperPipeline) (until_date : String) :
    ∀ (urls : List String) (store : Store) (dlr : Bool),
      (∀ d, d ∈ store → d ∈ (article_loop env cfg until_date urls store dlr).store) ∧
      (∀ d, Event.insertDoc d ∈ (article_loop env cfg until_date urls store dlr).events →
        d ∈ (article_loop env cfg until_date urls store dlr).store) := by
  intro urls
  induction urls with
  | nil => intro store dlr; simp [article_loop]
  | cons url rest ih =>
    intro store dlr
    by_cases hs : storeHas store url = true
    · cases dlr with
      | true => simp [article_loop, hs]
      | false => simpa [article_loop, hs] using ih store false
    · have hs2 : storeHas store url = false := by
        revert hs; cases storeHas store url <;> simp
      cases hf : env.fetch url cfg.scraper_request_params with
      | error e => simp [article_loop, hs2, hf]
      | ok content =>
        cases hi : env.insertErr store
            ⟨url, true, cfg.site_name, env.parseWebsite content cfg.scrape_patterns⟩ with
        | some e => simp [article_loop, hs2, hf, hi]
        | none =>
          have hrec := ih (store ++ [⟨url, true, cfg.site_name,
            env.parseWebsite content cfg.scrape_patterns⟩])
          cases hd : (env.parseWebsite content cfg.scrape_patterns).parsed_date with
          | none =>
            cases dlr with
            | true =>
              simp [article_loop, hs2, hf, hi, hd]
              exact fun d h3 => Or.inl h3
            | false =>
              simp only [article_loop, hs2, Bool.false_eq_true, if_false, hf, hd, hi]
              constructor
              · intro d hd2
                exact (hrec false).1 d (by simp [hd2])
              · intro d hd2
                simp only [List.mem_cons] at hd2
                rcases hd2 with h1 | h1 | h1
                · simp at h1
                · simp only [Event.insertDoc.injEq] at h1
                  subst h1
                  exact (hrec false).1 _ (by simp)
                · exact (hrec false).2 d h1
          | some dt =>
            cases hlt : pyStrLt dt until_date with
            | true =>
              simp [article_loop, hs2, hf, hi, hd, hlt]
              exact fun d h3 => Or.inl h3
            | false =>
              simp only [article_loop, hs2, Bool.false_eq_true, if_false, hf, hd, hlt, hi]
              constructor
              · intro d hd2
                exact (hrec false).1 d (by simp [hd2])
              · intro d hd2
                simp only [List.mem_cons] at hd2
                rcases hd2 with h1 | h1 | h1
                · simp at h1
                · simp only [Event.insertDoc.injEq] at h1
                  subst h1
                  exact (hrec false).1 _ (by simp)
                · exact (hrec false).2 d h1

/-- Helper: processing one dequeued listing URL only ever appends to the
store, and every insertion event of the step's trace is reflected in the
step's store — also when the step ends in an error. -/
theorem process_start_url_persist (env : Env) (cfg : SiteScraperPipeline)
    (m : Int) (until_date url : String) (store : Store) :
    (∀ d, d ∈ store → d ∈ (process_start_url env cfg m until_date url store).store) ∧
    (∀ d, Event.insertDoc d ∈ (process_start_url env cfg m until_date url store).events →
      d ∈ (process_start_url env cfg m until_date url store).store) := by
  simp only [process_start_url]
  cases hf : env.fetch url cfg.crawler_request_params with
  | error e => simp
  | ok page_content =>
    by_cases hg : should_crawl_website env cfg page_content = true
    · simp only [hg, Bool.not_true, Bool.false_eq_true, if_false]
      cases hp : page_limit_reached env cfg page_content m with
      | error e => simp
      | ok b =>
        cases b with
        | true => simp
        | false =>
          have hart := article_loop_persist env cfg until_date
            (find_article_urls env cfg page_content) store false
          cases he : (article_loop env cfg until_date
              (find_article_urls env cfg page_content) store false).err with
          | some e =>
            refine ⟨hart.1, ?_⟩
            intro d hd
            simp only [List.mem_cons] at hd
            rcases hd with h1 | h1
            · simp at h1
            · exact hart.2 d h1
          | none =>
            cases hdl : (article_loop env cfg until_date
                (find_article_urls env cfg page_content) store false).date_limit_reached with
            | true =>
              simp only [if_true]
              refine ⟨hart.1, ?_⟩
              intro d hd
              simp only [List.mem_cons] at hd
              rcases hd with h1 | h1
              · simp at h1
              · exact hart.2 d h1
            | false =>
              simp only [Bool.false_eq_true, if_false]
              refine ⟨hart.1, ?_⟩
              intro d hd
              simp only [List.mem_cons, List.mem_append] at hd
              rcases hd with h1 | h1 | h1
              · simp at h1
              · exact hart.2 d h1
              · simp at h1
    · have hg2 : should_crawl_website env cfg page_content = false := by
        revert hg; cases should_crawl_website env cfg page_content <;> simp
      simp [hg2]

/-- C7: when the step for the frontier head fails (any fetch error or
store-insertion error surfaced in `step.err`), the whole loop result is
exactly that step's partial result with the error as outcome — none of the
remaining frontier items is processed — while the store keeps everything
it held before the step, and every document whose insertion event occurred
before the failure is persisted in the final store. -/
theorem claim_C7_abort_preserves_store (env : Env) (cfg : SiteScraperPipeline)
    (m : Int) (until_date url : String) (fuel : Nat) (rest : List String)
    (store : Store) (e : RunError)
    (h : (process_start_url env cfg m until_date url store).err = some e) :
    crawl_loop env cfg m until_date (fuel + 1) (url :: rest) store =
      ⟨(process_start_url env cfg m until_date url store).events,
       (process_start_url env cfg m until_date url store).store,
       .err e⟩ ∧
    (∀ d, Event.insertDoc d ∈ (process_start_url env cfg m until_date url store).events →
      d ∈ (process_start_url env cfg m until_date url store).store) ∧
    (∀ d, d ∈ store → d ∈ (process_start_url env cfg m until_date url store).store) := by
  have hper := process_start_url_persist env cfg m until_date url store
  refine ⟨?_, hper.2, hper.1⟩
  simp only [crawl_loop, h]

/-- C7 witness: fetching the listing "nope" fails on `env1`; the loop
aborts with the fetch error before touching the queued "bL". -/
theorem claim_C7_witness :
    (process_start_url env1 cfg1 10 "5" "nope" []).err = some .fetchError ∧
    crawl_loop env1 cfg1 10 "5" 1 ["nope", "bL"] [] =
      ⟨[Event.fetchListing "nope"], [], .err .fetchError⟩ := by
  refine ⟨rfl, ?_⟩
  exact (claim_C7_abort_preserves_store env1 cfg1 10 "5" "nope" 0 ["bL"] []
    .fetchError rfl).1

/-- C10: when the next-page pattern is configured and matches an element
but no anchor href is found beneath it, `_get_next_page` returns
`urljoin(base_url, None) = base_url` itself — not "no next page" — and
consequently, for a listing step that completes its article batch without
error or date limit, `base_url` is pushed to the front of the frontier:
the loop continues with frontier `base_url :: rest`. -/
theorem claim_C10_missing_href_yields_base (env : Env) (cfg : SiteScraperPipeline)
    (content pat el : String)
    (hp : cfg.site_elements_patterns.next_page_pattern = some pat)
    (hel : xpathGet env content pat = some el)
    (hhref : xpathGet env content (pat ++ "//a/@href") = none) :
    get_next_page env cfg content = some cfg.base_url ∧
    (∀ (m : Int) (until_date url : String) (fuel : Nat) (rest : List String)
       (store st : Store) (evs : List Event),
      env.fetch url cfg.crawler_request_params = .ok content →
      should_crawl_website env cfg content = true →
      page_limit_reached env cfg content m = .ok false →
      article_loop env cfg until_date (find_article_urls env cfg content) store false =
        ⟨evs, st, false, none⟩ →
      crawl_loop env cfg m until_date (fuel + 1) (url :: rest) store =
        ⟨(Event.fetchListing url :: (evs ++ [Event.nextPage (some cfg.base_url)])) ++
           (crawl_loop env cfg m until_date fuel (cfg.base_url :: rest) st).events,
         (crawl_loop env cfg m until_date fuel (cfg.base_url :: rest) st).store,
         (crawl_loop env cfg m until_date fuel (cfg.base_url :: rest) st).outcome⟩) := by
  have hnp : get_next_page env cfg content = some cfg.base_url := by
    simp [get_next_page, hp, hel, hhref, pyUrljoin]
  refine ⟨hnp, ?_⟩
  intro m until_date url fuel rest store st evs hf hg hl hart
  have hstep : process_start_url env cfg m until_date url store =
      ⟨Event.fetchListing url :: (evs ++ [Event.nextPage (some cfg.base_url)]), st,
       some cfg.base_url, none⟩ := by
    simp [process_start_url, hf, hg, hl, hart, hnp]
  simp [crawl_loop, hstep]

/-- C10 witness: on `env10` the next-page element of "PA" has no href;
the resolution yields base "b", which is dequeued immediately after
"bA". -/
theorem claim_C10_witness :
    get_next_page env10 cfg4 "PA" = some "b" ∧
    crawl_loop env10 cfg4 10 "5" 2 ["bA"] [] =
      ⟨(Event.fetchListing "bA" :: ([] ++ [Event.nextPage (some "b")])) ++
         (crawl_loop env10 cfg4 10 "5" 1 ["b"] []).events,
       (crawl_loop env10 cfg4 10 "5" 1 ["b"] []).store,
       (crawl_loop env10 cfg4 10 "5" 1 ["b"] []).outcome⟩ := by
  have h := claim_C10_missing_href_yields_base env10 cfg4 "PA" "N" "x" rfl rfl rfl
  exact ⟨h.1, h.2 10 "5" "bA" 1 [] [] [] [] rfl rfl rfl rfl⟩

/-- C8: start-URL discovery is exactly the topic-pattern matches of the
base page, each resolved against `base_url`, kept (in discovery order, as
the sublist relation states) precisely when the resolved URL starts with
`base_url` and is not blacklisted; and when the pattern matches no
element the seed set is empty and the run completes with outcome `ok`,
zero events beyond the base fetch, and an untouched store. -/
theorem claim_C8_start_url_discovery (env : Env) (cfg : SiteScraperPipeline)
    (content : String) (m : Int) (until_date : String) (fuel : Nat) (store : Store) :
    (∀ u, u ∈ find_start_urls env cfg content ↔
      (u ∈ (env.xpathAll content cfg.site_elements_patterns.topics_urls_pattern).map
          (fun raw => pyUrljoin env cfg.base_url (some raw)) ∧
       pyStartswith u cfg.base_url = true ∧
       u ∉ cfg.blacklisted_urls)) ∧
    List.Sublist (find_start_urls env cfg content)
      ((env.xpathAll content cfg.site_elements_patterns.topics_urls_pattern).map
        (fun raw => pyUrljoin env cfg.base_url (some raw))) ∧
    (env.xpathAll content cfg.site_elements_patterns.topics_urls_pattern = [] →
      env.fetch cfg.base_url cfg.crawler_request_params = .ok content →
      SiteScraper.run env cfg m until_date fuel store =
        ⟨[Event.fetchListing cfg.base_url], store, Outcome.ok⟩) := by
  refine ⟨?_, ?_, ?_⟩
  · intro u
    simp [find_start_urls, List.mem_filter]
    tauto
  · exact ((List.filter_sublist _).trans (List.filter_sublist _))
  · intro hempty hfetch
    have hseeds : find_start_urls env cfg content = [] := by
      simp [find_start_urls, hempty]
    simp [SiteScraper.run, hfetch, hseeds, crawl_loop]

/-- C8 witness: on `env8` (no pattern matches anything) the run does zero
work and succeeds. -/
theorem claim_C8_witness :
    SiteScraper.run env8 cfg1 10 "5" 3 [] =
      ⟨[Event.fetchListing "b"], [], Outcome.ok⟩ ∧
    ("bL" ∈ find_start_urls env8 cfg1 "E" ↔
      ("bL" ∈ (env8.xpathAll "E" "T").map (fun raw => pyUrljoin env8 "b" (some raw)) ∧
       pyStartswith "bL" "b" = true ∧ "bL" ∉ cfg1.blacklisted_urls)) := by
  have h := claim_C8_start_url_discovery env8 cfg1 "E" 10 "5" 3 []
  exact ⟨h.2.2 rfl rfl, h.1 "bL"⟩

/-- Helper: the article loop reads only `site_name`,
`scraper_request_params` and `scrape_patterns` from the pipeline
configuration. -/
theorem article_loop_congr (env : Env) (cfg cfg2 : SiteScraperPipeline)
    (until_date : String)
    (h1 : cfg.site_name = cfg2.site_name)
    (h5 : cfg.scraper_request_params = cfg2.scraper_request_params)
    (h6 : cfg.scrape_patterns = cfg2.scrape_patterns) :
    ∀ (urls : List String) (store : Store) (dlr : Bool),
      article_loop env cfg until_date urls store dlr =
      article_loop env cfg2 until_date urls store dlr := by
  intro urls
  induction urls with
  | nil => intro store dlr; rfl
  | cons url rest ih =>
    intro store dlr
    simp only [article_loop, h1, h5, h6]
    by_cases hs : storeHas store url = true
    · simp only [hs, if_true]
      cases dlr with
      | true => rfl
      | false => simp [ih]
    · have hs2 : storeHas store url = false := by
        revert hs; cases storeHas store url <;> simp
      simp only [hs2, Bool.false_eq_true, if_false]
      cases hf : env.fetch url cfg2.scraper_request_params with
      | error e => rfl
      | ok content =>
        simp only []
        cases hd : (env.parseWebsite content cfg2.scrape_patterns).parsed_date with
        | none =>
          cases hi : env.insertErr store
              ⟨url, true, cfg2.site_name, env.parseWebsite content cfg2.scrape_patterns⟩ with
          | some e => simp [hd, hi]
          | none =>
            cases dlr with
            | true => simp [hd, hi]
            | false => simp [hd, hi, ih]
        | some dt =>
          cases hi : env.insertErr store
              ⟨url, true, cfg2.site_name, env.parseWebsite content cfg2.scrape_patterns⟩ with
          | some e => simp [hd, hi]
          | none =>
            cases hlt : pyStrLt dt until_date with
            | true => simp [hd, hi, hlt]
            | false => simp [hd, hi, hlt, ih]

/-- Helper: processing a dequeued listing URL reads only the site name,
base URL, request parameter sets, element patterns, scrape patterns and
URL blacklist — never `blacklisted_url_patterns`. -/
theorem process_start_url_congr (env : Env) (cfg cfg2 : SiteScraperPipeline)
    (h1 : cfg.site_name = cfg2.site_name)
    (h2 : cfg.base_url = cfg2.base_url)
    (h3 : cfg.crawler_request_params = cfg2.crawler_request_params)
    (h4 : cfg.site_elements_patterns = cfg2.site_elements_patterns)
    (h5 : cfg.scraper_request_params = cfg2.scraper_request_params)
    (h6 : cfg.scrape_patterns = cfg2.scrape_patterns) :
    ∀ (m : Int) (until_date url : String) (store : Store),
      process_start_url env cfg m until_date url store =
      process_start_url env cfg2 m until_date url store := by
  intro m until_date url store
  have hsc : ∀ c, should_crawl_website env cfg c = should_crawl_website env cfg2 c := by
    intro c; simp only [should_crawl_website, h4]
  have hpl : ∀ c, page_limit_reached env cfg c m = page_limit_reached env cfg2 c m := by
    intro c; simp only [page_limit_reached, h4]
  have hfa : ∀ c, find_article_urls env cfg c = find_article_urls env cfg2 c := by
    intro c; simp only [find_article_urls, h4, h2]
  have hgn : ∀ c, get_next_page env cfg c = get_next_page env cfg2 c := by
    intro c; simp only [get_next_page, h4, h2]
  have hal := article_loop_congr env cfg cfg2 until_date h1 h5 h6
  simp only [process_start_url, h3, hsc, hpl, hfa, hgn, hal]

/-- Helper: the crawl loop is invariant under any configuration change
that preserves the fields other than `blacklisted_url_patterns`. -/
theorem crawl_loop_congr (env : Env) (cfg cfg2 : SiteScraperPipeline)
    (h1 : cfg.site_name = cfg2.site_name)
    (h2 : cfg.base_url = cfg2.base_url)
    (h3 : cfg.crawler_request_params = cfg2.crawler_request_params)
    (h4 : cfg.site_elements_patterns = cfg2.site_elements_patterns)
    (h5 : cfg.scraper_request_params = cfg2.scraper_request_params)
    (h6 : cfg.scrape_patterns = cfg2.scrape_patterns) :
    ∀ (m : Int) (until_date : String) (fuel : Nat) (frontier : List String) (store : Store),
      crawl_loop env cfg m until_date fuel frontier store =
      crawl_loop env cfg2 m until_date fuel frontier store := by
  intro m until_date fuel
  induction fuel with
  | zero => intro frontier store; cases frontier <;> rfl
  | succ n ih =>
    intro frontier store
    cases frontier with
    | nil => rfl
    | cons url rest =>
      have hstep := process_start_url_congr env cfg cfg2 h1 h2 h3 h4 h5 h6
        m until_date url store
      simp only [crawl_loop, hstep, ih]

/-- C9: two pipeline configurations that differ only in their
`blacklisted_url_patterns` field produce identical runs on every
environment, frontier budget and initial store: the field is stored by
`__init__` (line 23) but never consulted by any operation. -/
theorem claim_C9_blacklist_patterns_unused (env : Env) (cfg : SiteScraperPipeline)
    (b b' : List String) (m : Int) (until_date : String) (fuel : Nat) (store : Store) :
    SiteScraper.run env { cfg with blacklisted_url_patterns := b } m until_date fuel store =
    SiteScraper.run env { cfg with blacklisted_url_patterns := b' } m until_date fuel store := by
  have hfs : ∀ c, find_start_urls env { cfg with blacklisted_url_patterns := b } c =
      find_start_urls env { cfg with blacklisted_url_patterns := b' } c := by
    intro c; simp only [find_start_urls]
  have hcl := crawl_loop_congr env { cfg with blacklisted_url_patterns := b }
    { cfg with blacklisted_url_patterns := b' } rfl rfl rfl rfl rfl rfl m until_date fuel
  simp only [SiteScraper.run, hfs, hcl]
